import Mathlib

/-!
Verification of the rootpy statistics wrapper (`rootpy/stats/__init__.py`,
`rootpy/stats/workspace.py`) and the tree-model example
(`examples/tree/models.py`) against its natural-language specification.

The repository is a thin Python 2 convenience layer over an external
native library (ROOT / RooFit / RooStats).  We shallowly embed the
wrapper code: the native workspace is a named association list of typed
objects, Python exceptions become `Except`, in-place mutation becomes
explicit state passing, and the global RooFit message service becomes a
`MsgLevel` field threaded through `fit`.  Python 2 semantics that matter
(ordering of `None` against integers, string truthiness) are embedded
explicitly.
-/

set_option autoImplicit false

/-- RooFit message levels, ordered from most verbose to most severe.
`setGlobalKillBelow l` suppresses every message strictly below `l`. -/
inductive MsgLevel where
  | DEBUG
  | INFO
  | PROGRESS
  | WARNING
  | ERROR
  | FATAL
deriving DecidableEq, Repr

/-- Python exceptions raised by the wrapper code. -/
inductive PyError where
  | valueError (msg : String)
  | typeError (msg : String)
  | attributeError (msg : String)
deriving DecidableEq, Repr

/-- Numeric values stored in RooRealVar objects (Python floats carry no
arithmetic in the wrapper, so an exact field suffices). -/
abbrev PyFloat := Rat

/-- The mutable observable state of a native RooRealVar: its value, its
constant flag, and its range. -/
structure VarState where
  value : PyFloat
  isConst : Bool
  lo : PyFloat
  hi : PyFloat
deriving DecidableEq, Repr

/-- A native RooStats ModelConfig: the pdf it points at and the names of
its parameters of interest (which are variables of the workspace). -/
structure ModelConfig where
  pdfName : String
  pois : List String
deriving DecidableEq, Repr

/-- The kinds of native objects a workspace can contain. -/
inductive WSObject where
  | var (v : VarState)
  | pdfObj (id : String)
  | dataObj (id : String)
  | catObj (id : String)
  | catFuncObj (id : String)
  | funcObj (id : String)
  | argSetObj (members : List String)
  | modelConfig (mc : ModelConfig)
  | generic (id : String)
deriving DecidableEq, Repr

/-- The native RooWorkspace: a named container of named objects.  The
Python `Workspace` class is a direct subclass of it, so one structure
models both. -/
structure Workspace where
  name : String
  objects : List (String × WSObject)
deriving DecidableEq, Repr

/-- Python classes the wrapper checks against with `isinstance`. -/
inductive PyClass where
  | modelConfigCls
  | realVarCls
  | absDataCls
  | absPdfCls
deriving DecidableEq, Repr

/-- The Python `isinstance` test restricted to the classes the wrapper
uses. -/
def isInstanceOf : WSObject → PyClass → Bool
  | WSObject.var _, PyClass.realVarCls => true
  | WSObject.dataObj _, PyClass.absDataCls => true
  | WSObject.pdfObj _, PyClass.absPdfCls => true
  | WSObject.modelConfig _, PyClass.modelConfigCls => true
  | _, _ => false

namespace Native

/-- Modelled from the spec: the wrapped library is a pre-existing native
workspace container; `RooWorkspace::obj` returns the object of the given
name, of any kind, or null. -/
def obj (ws : Workspace) (name : String) : Option WSObject :=
  match ws.objects.find? (fun p => p.1 == name) with
  | some p => some p.2
  | none => none

/-- Modelled from the spec: `RooWorkspace::var` returns the RooRealVar of
the given name or null. -/
def var (ws : Workspace) (name : String) : Option VarState :=
  match obj ws name with
  | some (WSObject.var v) => some v
  | _ => none

/-- Modelled from the spec: `RooWorkspace::data` returns the RooAbsData
of the given name or null. -/
def data (ws : Workspace) (name : String) : Option WSObject :=
  match obj ws name with
  | some (WSObject.dataObj i) => some (WSObject.dataObj i)
  | _ => none

/-- Modelled from the spec: `RooWorkspace::pdf` returns the RooAbsPdf of
the given name or null. -/
def pdf (ws : Workspace) (name : String) : Option WSObject :=
  match obj ws name with
  | some (WSObject.pdfObj i) => some (WSObject.pdfObj i)
  | _ => none

/-- Modelled from the spec: `RooWorkspace::function` returns the
RooAbsReal of the given name or null. -/
def function (ws : Workspace) (name : String) : Option WSObject :=
  match obj ws name with
  | some (WSObject.funcObj i) => some (WSObject.funcObj i)
  | _ => none

/-- Modelled from the spec: `RooWorkspace::cat` returns the RooCategory
of the given name or null. -/
def cat (ws : Workspace) (name : String) : Option WSObject :=
  match obj ws name with
  | some (WSObject.catObj i) => some (WSObject.catObj i)
  | _ => none

/-- Modelled from the spec: `RooWorkspace::catfunc` returns the
RooAbsCategory function of the given name or null. -/
def catfunc (ws : Workspace) (name : String) : Option WSObject :=
  match obj ws name with
  | some (WSObject.catFuncObj i) => some (WSObject.catFuncObj i)
  | _ => none

/-- Modelled from the spec: `RooWorkspace::arg` returns the RooAbsArg of
the given name or null; variables, categories, functions and pdfs are
args, datasets and generic objects are not. -/
def arg (ws : Workspace) (name : String) : Option WSObject :=
  match obj ws name with
  | some (WSObject.var v) => some (WSObject.var v)
  | some (WSObject.pdfObj i) => some (WSObject.pdfObj i)
  | some (WSObject.funcObj i) => some (WSObject.funcObj i)
  | some (WSObject.catObj i) => some (WSObject.catObj i)
  | some (WSObject.catFuncObj i) => some (WSObject.catFuncObj i)
  | _ => none

/-- Modelled from the spec: `RooWorkspace::argSet` returns the named set
of args stored in the workspace, or null. -/
def argSet (ws : Workspace) (name : String) : Option WSObject :=
  match obj ws name with
  | some (WSObject.argSetObj ms) => some (WSObject.argSetObj ms)
  | _ => none

/-- Modelled from the spec: `RooWorkspace::set` returns the named set of
args stored in the workspace, or null. -/
def set (ws : Workspace) (name : String) : Option WSObject :=
  match obj ws name with
  | some (WSObject.argSetObj ms) => some (WSObject.argSetObj ms)
  | _ => none

/-- Modelled from the spec: `RooWorkspace::allData` returns the native
collection of all datasets contained in the workspace. -/
def allData (ws : Workspace) : List WSObject :=
  (ws.objects.filterMap (fun p =>
    match p.2 with
    | WSObject.dataObj i => some (WSObject.dataObj i)
    | _ => none))

end Native

/-- Modelled from the spec: `asrootpy` rewraps a native object in its
rootpy convenience subclass; the wrapping is a pass-through, so on the
observable content of an object it is the identity. -/
def asrootpy (o : WSObject) : WSObject := o

/-- The rootpy `Workspace.__getitem__`: look the name up with the native
`obj`, raise ValueError when it is null, otherwise return the wrapped
object. -/
def Workspace.getitem (ws : Workspace) (name : String) : Except PyError WSObject :=
  match Native.obj ws name with
  | none => Except.error (PyError.valueError
      ("object named " ++ name ++ " does not exist in the workspace " ++ ws.name))
  | some thing => Except.ok (asrootpy thing)

/-- The rootpy `Workspace.__contains__`: truthiness of the native `obj`
result (a null proxy is falsy, every real object truthy). -/
def Workspace.contains (ws : Workspace) (name : String) : Bool :=
  match Native.obj ws name with
  | some _ => true
  | none => false

/-- The rootpy `Workspace.obj`: ValueError when the name is absent,
TypeError when a class is requested and the wrapped object is not an
instance of it, otherwise the wrapped object. -/
def Workspace.obj (ws : Workspace) (name : String) (cls : Option PyClass) : Except PyError WSObject :=
  match Native.obj ws name with
  | none => Except.error (PyError.valueError
      ("object named " ++ name ++ " does not exist in the workspace " ++ ws.name))
  | some thing =>
    let thing := asrootpy thing
    match cls with
    | some c =>
      if isInstanceOf thing c then Except.ok thing
      else Except.error (PyError.typeError
        ("object named " ++ name ++ " is not of the correct type"))
    | none => Except.ok thing

/-- The rootpy `Workspace.arg`. -/
def Workspace.arg (ws : Workspace) (name : String) : Except PyError WSObject :=
  match Native.arg ws name with
  | none => Except.error (PyError.valueError
      ("RooAbsArg named " ++ name ++ " does not exist in the workspace " ++ ws.name))
  | some thing => Except.ok thing

/-- The rootpy `Workspace.argset`. -/
def Workspace.argset (ws : Workspace) (name : String) : Except PyError WSObject :=
  match Native.argSet ws name with
  | none => Except.error (PyError.valueError
      ("RooArgSet named " ++ name ++ " does not exist in the workspace " ++ ws.name))
  | some thing => Except.ok thing

/-- The rootpy `Workspace.category`. -/
def Workspace.category (ws : Workspace) (name : String) : Except PyError WSObject :=
  match Native.cat ws name with
  | none => Except.error (PyError.valueError
      ("RooCategory named " ++ name ++ " does not exist in the workspace " ++ ws.name))
  | some thing => Except.ok thing

/-- The rootpy `Workspace.category_function`. -/
def Workspace.category_function (ws : Workspace) (name : String) : Except PyError WSObject :=
  match Native.catfunc ws name with
  | none => Except.error (PyError.valueError
      ("RooAbsCategory named " ++ name ++ " does not exist in the workspace " ++ ws.name))
  | some thing => Except.ok thing

/-- The rootpy `Workspace.data`. -/
def Workspace.data (ws : Workspace) (name : String) : Except PyError WSObject :=
  match Native.data ws name with
  | none => Except.error (PyError.valueError
      ("RooAbsData named " ++ name ++ " does not exist in the workspace " ++ ws.name))
  | some thing => Except.ok thing

/-- The rootpy `Workspace.function`. -/
def Workspace.function (ws : Workspace) (name : String) : Except PyError WSObject :=
  match Native.function ws name with
  | none => Except.error (PyError.valueError
      ("RooAbsReal named " ++ name ++ " does not exist in the workspace " ++ ws.name))
  | some thing => Except.ok thing

/-- The rootpy `Workspace.pdf`. -/
def Workspace.pdf (ws : Workspace) (name : String) : Except PyError WSObject :=
  match Native.pdf ws name with
  | none => Except.error (PyError.valueError
      ("RooAbsPdf named " ++ name ++ " does not exist in the workspace " ++ ws.name))
  | some thing => Except.ok thing

/-- The rootpy `Workspace.set` (returns `asrootpy(thing)`). -/
def Workspace.set (ws : Workspace) (name : String) : Except PyError WSObject :=
  match Native.set ws name with
  | none => Except.error (PyError.valueError
      ("RooArgSet named " ++ name ++ " does not exist in the workspace " ++ ws.name))
  | some thing => Except.ok (asrootpy thing)

/-- The rootpy `Workspace.var` (returns `asrootpy(thing)`). -/
def Workspace.var (ws : Workspace) (name : String) : Except PyError VarState :=
  match Native.var ws name with
  | none => Except.error (PyError.valueError
      ("RooRealVar named " ++ name ++ " does not exist in the workspace " ++ ws.name))
  | some v => Except.ok v

/-! ## The global message service and `mute_roostats` -/

/-- Python truthiness of `os.environ.get(key, False)`: the default
`False` is falsy, a string is truthy exactly when it is non-empty. -/
def envGetTruthy : Option String → Bool
  | none => false
  | some s => !s.isEmpty

/-- The process environment as far as the wrapper reads it: the value of
the DEBUG variable, `none` when unset. -/
structure Env where
  debug : Option String
deriving DecidableEq, Repr

/-- `mute_roostats` from `rootpy/stats/__init__.py`: when DEBUG is not
truthy, set the global kill-below threshold to WARNING; otherwise leave
the threshold alone.  Takes and returns the global threshold. -/
def mute_roostats (env : Env) (threshold : MsgLevel) : MsgLevel :=
  if !envGetTruthy env.debug then MsgLevel.WARNING
  else threshold

/-! ## Properties and the `datas` slip

A Python `property` getter is called with the instance as its one
positional argument.  The getters of `Workspace` are embedded with the
calling convention made explicit, because one of them (`datas`) is
declared without a `self` parameter. -/

/-- A property getter as declared in the class body: either it takes the
instance (`def f(self): ...`) or it was declared with an empty parameter
list (`def f(): ...`). -/
inductive PropGetter where
  | withSelf (f : Workspace → List WSObject)
  | noSelf

/-- Accessing a property: Python passes the instance to the getter; a
getter declared with no parameters rejects that argument with a
TypeError before its body runs. -/
def accessProp (ws : Workspace) : PropGetter → Except PyError (List WSObject)
  | PropGetter.withSelf f => Except.ok (f ws)
  | PropGetter.noSelf => Except.error (PyError.typeError
      "getter takes no arguments (1 given)")

/-- The `datas` property getter as written in the source: declared as
`def datas():`, without a `self` parameter. -/
def Workspace.datasGetter : PropGetter := PropGetter.noSelf

/-- Accessing `workspace.datas`. -/
def Workspace.datas (ws : Workspace) : Except PyError (List WSObject) :=
  accessProp ws Workspace.datasGetter

/-- For contrast, a sibling property written with `self`:
`generic_objects` returns `self.allGenericObjects()`; here shown with
the datasets collection to type-match (`pdfs`, `vars`, ... are alike). -/
def Workspace.allDataGetter : PropGetter := PropGetter.withSelf Native.allData

/-! ## In-place variable mutation -/

/-- The effect of mutating the RooRealVar named `n` on a single
workspace entry: only the var payload stored under that name changes;
names and object kinds are untouched. -/
def updEntry (n : String) (f : VarState → VarState) : String × WSObject → String × WSObject
  | (m, WSObject.var v) => if m == n then (m, WSObject.var (f v)) else (m, WSObject.var v)
  | q => q

/-- In-place mutation of the RooRealVar named `n`: the workspace maps
names to objects, so updating the shared native object is updating the
var payload stored under that name. -/
def setVarIn (ws : Workspace) (n : String) (f : VarState → VarState) : Workspace :=
  { ws with objects := ws.objects.map (updEntry n f) }

/-- `poi.setConstant(c)`. -/
def setConstIn (ws : Workspace) (n : String) (c : Bool) : Workspace :=
  setVarIn ws n (fun v => { v with isConst := c })

/-- `poi.setVal(x)`. -/
def setValIn (ws : Workspace) (n : String) (x : PyFloat) : Workspace :=
  setVarIn ws n (fun v => { v with value := x })

/-- `poi.setRange(lo, hi)`. -/
def setRangeIn (ws : Workspace) (n : String) (r : PyFloat × PyFloat) : Workspace :=
  setVarIn ws n (fun v => { v with lo := r.1, hi := r.2 })

/-! ## `Workspace.fit` -/

/-- The keyword arguments of `Workspace.fit` with their Python default
values.  Dicts are embedded as association lists (the iteration order of
a Python dict is fixed but arbitrary; the embedding fixes it). -/
structure FitArgs where
  data_name : String := "obsData"
  model_config_name : String := "ModelConfig"
  param_const : Option (List (String × Bool)) := none
  param_values : Option (List (String × PyFloat)) := none
  param_ranges : Option (List (String × (PyFloat × PyFloat))) := none
  poi_const : Bool := false
  poi_value : Option PyFloat := none
  poi_range : Option (PyFloat × PyFloat) := none
  print_level : Option Int := none
deriving DecidableEq, Repr

/-- The Python 2 comparison `x < 0` for `x` either `None` or an int:
in Python 2, `None` compares less than every integer, so `None < 0` is
`True`. -/
def py2LtZero : Option Int → Bool
  | none => true
  | some n => decide (n < 0)

/-- The global state `fit` touches: the workspace itself and the global
kill-below threshold of the RooFit message service. -/
structure GlobalState where
  ws : Workspace
  msgThreshold : MsgLevel
deriving DecidableEq, Repr

/-- Modelled from the spec: `pdf.createNLL(data)` asks the wrapped
library to build the negative log-likelihood.  The construction emits
messages governed by the global threshold, so the model records the pdf,
the data and the threshold in effect while the NLL was built. -/
structure NLL where
  pdfName : String
  dataName : String
  builtAtThreshold : MsgLevel
deriving DecidableEq, Repr

/-- The result of a fit as far as the wrapper is concerned. -/
structure FitResult where
  nll : NLL
  printLevel : Option Int
deriving DecidableEq, Repr

/-- Modelled from the spec: `minimize` (defined in the `fit` module,
which is not under src/) runs the wrapped minimizer on the NLL with the
given print level and returns the fit result. -/
def minimize (nll : NLL) (print_level : Option Int) : FitResult :=
  { nll := nll, printLevel := print_level }

/-- The POI block of `fit`: when the model config has at least one
parameter of interest, take the first, set its constant flag to
`poi_const`, then its value when `poi_value` is given, then its range
when `poi_range` is given. -/
def poiStage (ws : Workspace) (mc : ModelConfig) (a : FitArgs) : Workspace :=
  match mc.pois with
  | [] => ws
  | poiName :: _ =>
    let w1 := setConstIn ws poiName a.poi_const
    let w2 := match a.poi_value with
      | some x => setValIn w1 poiName x
      | none => w1
    match a.poi_range with
    | some r => setRangeIn w2 poiName r
    | none => w2

/-- One iteration of the `param_const` loop. -/
def constStep (ws : Workspace) (p : String × Bool) : Workspace :=
  setConstIn ws p.1 p.2

/-- One iteration of the `param_values` loop. -/
def valueStep (ws : Workspace) (p : String × PyFloat) : Workspace :=
  setValIn ws p.1 p.2

/-- One iteration of the `param_ranges` loop. -/
def rangeStep (ws : Workspace) (p : String × (PyFloat × PyFloat)) : Workspace :=
  setRangeIn ws p.1 p.2

/-- The `param_const` loop: `self.var(name)` raises ValueError on a
missing variable, aborting the loop; the exception carries away the
workspace as already mutated (Python does not roll back). -/
def applyParamConst (ws : Workspace) : List (String × Bool) → Except (PyError × Workspace) Workspace
  | [] => Except.ok ws
  | p :: rest =>
    match Workspace.var ws p.1 with
    | Except.error e => Except.error (e, ws)
    | Except.ok _ => applyParamConst (constStep ws p) rest

/-- The `param_values` loop. -/
def applyParamValues (ws : Workspace) : List (String × PyFloat) → Except (PyError × Workspace) Workspace
  | [] => Except.ok ws
  | p :: rest =>
    match Workspace.var ws p.1 with
    | Except.error e => Except.error (e, ws)
    | Except.ok _ => applyParamValues (valueStep ws p) rest

/-- The `param_ranges` loop. -/
def applyParamRanges (ws : Workspace) : List (String × (PyFloat × PyFloat)) → Except (PyError × Workspace) Workspace
  | [] => Except.ok ws
  | p :: rest =>
    match Workspace.var ws p.1 with
    | Except.error e => Except.error (e, ws)
    | Except.ok _ => applyParamRanges (rangeStep ws p) rest

/-- The three `param_*` blocks of `fit`, in source order; a `none` dict
skips its block. -/
def paramStages (ws : Workspace) (a : FitArgs) : Except (PyError × Workspace) Workspace :=
  match (match a.param_const with
         | none => Except.ok ws
         | some l => applyParamConst ws l) with
  | Except.error e => Except.error e
  | Except.ok ws1 =>
    match (match a.param_values with
           | none => Except.ok ws1
           | some l => applyParamValues ws1 l) with
    | Except.error e => Except.error e
    | Except.ok ws2 =>
      match a.param_ranges with
      | none => Except.ok ws2
      | some l => applyParamRanges ws2 l

/-- `Workspace.fit`, embedded with state passing.  The source order:
look up the model config (validated against ModelConfig), look up the
data, read the pdf from the config, run the POI block, run the three
parameter blocks (an exception propagates with the state mutated so
far), then — under Python 2 — compare `print_level < 0` (true also for
the default `None`), setting the global kill-below threshold to FATAL
around `createNLL` and restoring it afterwards when the comparison
holds, and hand the NLL to `minimize`. -/
def Workspace.fit (gs : GlobalState) (a : FitArgs) : Except PyError FitResult × GlobalState :=
  match Workspace.obj gs.ws a.model_config_name (some PyClass.modelConfigCls) with
  | Except.error e => (Except.error e, gs)
  | Except.ok o =>
    match o with
    | WSObject.modelConfig mc =>
      match Workspace.data gs.ws a.data_name with
      | Except.error e => (Except.error e, gs)
      | Except.ok _ =>
        let ws1 := poiStage gs.ws mc a
        match paramStages ws1 a with
        | Except.error (e, wsPart) => (Except.error e, { gs with ws := wsPart })
        | Except.ok ws2 =>
          let suppress := py2LtZero a.print_level
          let savedLevel := gs.msgThreshold
          let levelDuringNLL := if suppress then MsgLevel.FATAL else gs.msgThreshold
          let nll : NLL :=
            { pdfName := mc.pdfName
              dataName := a.data_name
              builtAtThreshold := levelDuringNLL }
          let levelAfter := if suppress then savedLevel else levelDuringNLL
          (Except.ok (minimize nll a.print_level),
           { ws := ws2, msgThreshold := levelAfter })
    | _ =>
      -- unreachable: `obj` with a class only returns instances of it;
      -- attribute access on anything else would raise in Python
      (Except.error (PyError.attributeError "GetPdf"), gs)

/-! ## Tree models (`examples/tree/models.py`)

Modelled from the spec: `rootpy.tree.TreeModel` (not under src/) is a
schema declaration mapping named fields to the wrapped library columnar
storage types; subclassing merges the fields of the bases in base order
followed by the fields declared in the class body, and `Model.prefix(p)`
is the same schema with `p` prepended to every field name. -/

/-- The columnar storage types used by the example models. -/
inductive ColType where
  | BoolCol
  | IntCol
  | LorentzVector
  | Vector2
deriving DecidableEq, Repr

/-- A tree model schema: named fields mapped to storage types. -/
abbrev TreeModel := List (String × ColType)

/-- `TreeModel.prefix(p)`: the same fields with `p` prepended to every
name. -/
def prefixModel (p : String) (m : TreeModel) : TreeModel :=
  m.map (fun f => (p ++ f.1, f.2))

/-- `class FourMomentum(TreeModel): fourmomentum = LorentzVector`. -/
def FourMomentum : TreeModel :=
  [("fourmomentum", ColType.LorentzVector)]

/-- `class MatchedObject(TreeModel): matched = BoolCol()`. -/
def MatchedObject : TreeModel :=
  [("matched", ColType.BoolCol)]

/-- `class Jet(FourMomentum, MatchedObject): btagged = BoolCol()`. -/
def Jet : TreeModel :=
  FourMomentum ++ MatchedObject ++ [("btagged", ColType.BoolCol)]

/-- `class Tau(FourMomentum, MatchedObject)` with `numtrack` and
`charge` int columns. -/
def Tau : TreeModel :=
  FourMomentum ++ MatchedObject ++
    [("numtrack", ColType.IntCol), ("charge", ColType.IntCol)]

/-- `class Event(Jet.prefix(jet1_), Jet.prefix(jet2_),
Tau.prefix(tau1_), Tau.prefix(tau2_))` with `eventnumber = IntCol()`
and `missingET = Vector2`. -/
def Event : TreeModel :=
  prefixModel "jet1_" Jet ++ prefixModel "jet2_" Jet ++
  prefixModel "tau1_" Tau ++ prefixModel "tau2_" Tau ++
  [("eventnumber", ColType.IntCol), ("missingET", ColType.Vector2)]

/-! ## Concrete fixtures used by witnesses and evaluations -/

/-- A concrete RooRealVar state. -/
def poiVar : VarState := { value := 1, isConst := false, lo := 0, hi := 10 }

/-- A concrete nuisance-parameter state. -/
def nuisVar : VarState := { value := 5, isConst := false, lo := -1, hi := 6 }

/-- A concrete model config whose single POI is SigXsecOverSM. -/
def demoMC : ModelConfig := { pdfName := "simPdf", pois := ["SigXsecOverSM"] }

/-- A concrete workspace holding a POI variable, a nuisance variable, a
model config, a dataset and a pdf. -/
def demoWS : Workspace :=
  { name := "combined"
    objects :=
      [("SigXsecOverSM", WSObject.var poiVar),
       ("alpha_sys", WSObject.var nuisVar),
       ("ModelConfig", WSObject.modelConfig demoMC),
       ("obsData", WSObject.dataObj "obsData"),
       ("simPdf", WSObject.pdfObj "simPdf")] }

/-- The demo global state: the message threshold starts at INFO. -/
def demoGS : GlobalState := { ws := demoWS, msgThreshold := MsgLevel.INFO }

/-- A concrete model config with no parameters of interest. -/
def emptyPoiMC : ModelConfig := { pdfName := "simPdf", pois := [] }

/-- A workspace whose model config declares no POI. -/
def noPoiWS : Workspace :=
  { name := "nopoi"
    objects :=
      [("ModelConfig", WSObject.modelConfig emptyPoiMC),
       ("obsData", WSObject.dataObj "obsData"),
       ("mu", WSObject.var poiVar)] }

/-- Global state around `noPoiWS`. -/
def noPoiGS : GlobalState := { ws := noPoiWS, msgThreshold := MsgLevel.INFO }

/-! ## Lemmas about variable mutation and lookups -/

theorem updEntry_fst (n : String) (f : VarState → VarState) (p : String × WSObject) :
    (updEntry n f p).1 = p.1 := by
  obtain ⟨m, o⟩ := p
  cases o <;> simp [updEntry]
  split <;> rfl

theorem find_updEntry (n : String) (f : VarState → VarState) (m : String) :
    ∀ (l : List (String × WSObject)),
      (l.map (updEntry n f)).find? (fun p => p.1 == m) =
        (l.find? (fun p => p.1 == m)).map (updEntry n f)
  | [] => rfl
  | p :: t => by
    simp only [List.map_cons, List.find?]
    rw [updEntry_fst]
    cases h : (p.1 == m) <;> simp [find_updEntry n f m t]

theorem native_obj_setVarIn (ws : Workspace) (n : String) (f : VarState → VarState)
    (m : String) :
    Native.obj (setVarIn ws n f) m =
      match Native.obj ws m with
      | some (WSObject.var v) =>
          some (if m == n then WSObject.var (f v) else WSObject.var v)
      | r => r := by
  unfold Native.obj setVarIn
  simp only []
  rw [find_updEntry]
  cases h : ws.objects.find? (fun p => p.1 == m) with
  | none => rfl
  | some p =>
    obtain ⟨p1, p2⟩ := p
    have hp : p1 == m := by
      have := List.find?_some h
      simpa using this
    have hp1 : p1 = m := by simpa using hp
    subst hp1
    cases p2 <;> simp [updEntry]
    split <;> rfl

theorem native_var_setVarIn (ws : Workspace) (n : String) (f : VarState → VarState)
    (m : String) :
    Native.var (setVarIn ws n f) m =
      if m == n then (Native.var ws m).map f else Native.var ws m := by
  unfold Native.var
  rw [native_obj_setVarIn]
  cases h : Native.obj ws m with
  | none => cases hmn : (m == n) <;> simp
  | some o =>
    cases o <;> cases hmn : (m == n) <;> simp_all

theorem native_var_setVarIn_isSome (ws : Workspace) (n : String) (f : VarState → VarState)
    (m : String) :
    (Native.var (setVarIn ws n f) m).isSome = (Native.var ws m).isSome := by
  rw [native_var_setVarIn]
  cases (m == n) <;> cases Native.var ws m <;> simp

theorem setVarIn_name (ws : Workspace) (n : String) (f : VarState → VarState) :
    (setVarIn ws n f).name = ws.name := rfl

theorem native_var_poiStage_isSome (ws : Workspace) (mc : ModelConfig) (a : FitArgs)
    (m : String) :
    (Native.var (poiStage ws mc a) m).isSome = (Native.var ws m).isSome := by
  unfold poiStage
  cases mc.pois with
  | nil => rfl
  | cons p ps =>
    cases a.poi_value <;> cases a.poi_range <;>
      simp [setConstIn, setValIn, setRangeIn, native_var_setVarIn_isSome]

theorem poiStage_name (ws : Workspace) (mc : ModelConfig) (a : FitArgs) :
    (poiStage ws mc a).name = ws.name := by
  unfold poiStage
  cases mc.pois with
  | nil => rfl
  | cons p ps =>
    cases a.poi_value <;> cases a.poi_range <;>
      simp [setConstIn, setValIn, setRangeIn, setVarIn_name]

theorem applyParamConst_missing (bad : String) (b : Bool)
    (done rest : List (String × Bool)) :
    ∀ (ws : Workspace),
      (∀ p ∈ done, (Native.var ws p.1).isSome = true) →
      Native.var ws bad = none →
      applyParamConst ws (done ++ (bad, b) :: rest) =
        Except.error
          (PyError.valueError ("RooRealVar named " ++ bad ++
            " does not exist in the workspace " ++ ws.name),
           List.foldl constStep ws done) := by
  induction done with
  | nil =>
    intro ws _ hbad
    simp [applyParamConst, Workspace.var, hbad]
  | cons p t ih =>
    intro ws hdone hbad
    have hp : (Native.var ws p.1).isSome = true := hdone p (by simp)
    obtain ⟨v, hv⟩ := Option.isSome_iff_exists.mp hp
    have hvar : Workspace.var ws p.1 = Except.ok v := by
      simp [Workspace.var, hv]
    simp only [List.cons_append, applyParamConst, hvar]
    simp only [List.append_eq]
    have hname : (constStep ws p).name = ws.name := by
      simp [constStep, setConstIn, setVarIn_name]
    have hdone2 : ∀ q ∈ t, (Native.var (constStep ws p) q.1).isSome = true := by
      intro q hq
      have := hdone q (by simp [hq])
      simpa [constStep, setConstIn, native_var_setVarIn_isSome] using this
    have hbad2 : Native.var (constStep ws p) bad = none := by
      have : (Native.var (constStep ws p) bad).isSome = false := by
        simp [constStep, setConstIn, native_var_setVarIn_isSome, hbad]
      exact Option.not_isSome_iff_eq_none.mp (by simp [this])
    rw [ih (constStep ws p) hdone2 hbad2, hname]
    simp [List.foldl]

/-! ## The named-lookup family -/

/-- The named-lookup methods of `Workspace` as one dispatchable family. -/
inductive LookupOp where
  | getitem
  | containsOp
  | obj (cls : Option PyClass)
  | arg
  | argset
  | category
  | category_function
  | data
  | function
  | pdf
  | set
  | var
deriving DecidableEq, Repr

/-- The value a named lookup returns: an object, a bare variable, or the
boolean of a membership test. -/
inductive LookupResult where
  | objR (r : Except PyError WSObject)
  | varR (r : Except PyError VarState)
  | boolR (b : Bool)

/-- State-passing embedding of a call to one named-lookup method: the
method value together with the workspace state after the call. -/
def runLookup (op : LookupOp) (ws : Workspace) (nm : String) : LookupResult × Workspace :=
  match op with
  | LookupOp.getitem => (LookupResult.objR (Workspace.getitem ws nm), ws)
  | LookupOp.containsOp => (LookupResult.boolR (Workspace.contains ws nm), ws)
  | LookupOp.obj cls => (LookupResult.objR (Workspace.obj ws nm cls), ws)
  | LookupOp.arg => (LookupResult.objR (Workspace.arg ws nm), ws)
  | LookupOp.argset => (LookupResult.objR (Workspace.argset ws nm), ws)
  | LookupOp.category => (LookupResult.objR (Workspace.category ws nm), ws)
  | LookupOp.category_function => (LookupResult.objR (Workspace.category_function ws nm), ws)
  | LookupOp.data => (LookupResult.objR (Workspace.data ws nm), ws)
  | LookupOp.function => (LookupResult.objR (Workspace.function ws nm), ws)
  | LookupOp.pdf => (LookupResult.objR (Workspace.pdf ws nm), ws)
  | LookupOp.set => (LookupResult.objR (Workspace.set ws nm), ws)
  | LookupOp.var => (LookupResult.varR (Workspace.var ws nm), ws)

theorem native_obj_mem (ws : Workspace) (nm : String) (o : WSObject)
    (h : Native.obj ws nm = some o) : ∃ k, (k, o) ∈ ws.objects := by
  unfold Native.obj at h
  cases hf : ws.objects.find? (fun p => p.1 == nm) with
  | none => rw [hf] at h; cases h
  | some p =>
    rw [hf] at h
    cases h
    refine ⟨p.1, ?_⟩
    have hm := List.mem_of_find?_eq_some hf
    simpa using hm

/-! ## Claim theorems -/

/-- C2: for every name, `workspace[name]` returns the wrapped object
when an object of that name exists (the native `obj` lookup finds it)
and raises ValueError when it does not; and `name in workspace` is true
exactly when `workspace[name]` returns without raising. -/
theorem getitem_contains_consistent (ws : Workspace) (nm : String) :
    (Workspace.contains ws nm = true ↔ ∃ r, Workspace.getitem ws nm = Except.ok r) ∧
    ((∃ o, Native.obj ws nm = some o ∧
        Workspace.getitem ws nm = Except.ok (asrootpy o)) ∨
     (Native.obj ws nm = none ∧
      ∃ msg, Workspace.getitem ws nm = Except.error (PyError.valueError msg))) := by
  cases h : Native.obj ws nm <;>
    simp [Workspace.getitem, Workspace.contains, h]

/-- C3: `Workspace.obj name cls` raises ValueError when no object of
that name exists, raises TypeError when the object exists but its
wrapped form is not an instance of the requested class, and otherwise
returns the wrapped object. -/
theorem obj_lookup_trichotomy (ws : Workspace) (nm : String) (cls : Option PyClass) :
    (Native.obj ws nm = none ∧
      ∃ msg, Workspace.obj ws nm cls = Except.error (PyError.valueError msg)) ∨
    (∃ o c, Native.obj ws nm = some o ∧ cls = some c ∧
      isInstanceOf (asrootpy o) c = false ∧
      ∃ msg, Workspace.obj ws nm cls = Except.error (PyError.typeError msg)) ∨
    (∃ o, Native.obj ws nm = some o ∧
      Workspace.obj ws nm cls = Except.ok (asrootpy o) ∧
      (cls = none ∨ ∃ c, cls = some c ∧ isInstanceOf (asrootpy o) c = true)) := by
  cases h : Native.obj ws nm with
  | none =>
    refine Or.inl ⟨rfl,
      ⟨"object named " ++ nm ++ " does not exist in the workspace " ++ ws.name, ?_⟩⟩
    simp [Workspace.obj, h]
  | some o =>
    cases hc : cls with
    | none =>
      refine Or.inr (Or.inr ⟨o, rfl, ?_, Or.inl rfl⟩)
      simp [Workspace.obj, h]
    | some c =>
      cases hi : isInstanceOf (asrootpy o) c with
      | false =>
        refine Or.inr (Or.inl ⟨o, c, rfl, rfl, hi,
          ⟨"object named " ++ nm ++ " is not of the correct type", ?_⟩⟩)
        simp [Workspace.obj, h, hi]
      | true =>
        refine Or.inr (Or.inr ⟨o, rfl, ?_, Or.inr ⟨c, rfl, hi⟩⟩)
        simp [Workspace.obj, h, hi]

/-- C4: `mute_roostats` lowers the global kill-below threshold to
WARNING exactly when the DEBUG environment variable is unset or set to
the empty string, and leaves the threshold unchanged for every
non-empty DEBUG value. -/
theorem mute_roostats_debug_gate (env : Env) (thr : MsgLevel) :
    mute_roostats env thr =
      if env.debug = none ∨ env.debug = some "" then MsgLevel.WARNING else thr := by
  cases hd : env.debug with
  | none => simp [mute_roostats, envGetTruthy, hd]
  | some s =>
    by_cases hs : s = ""
    · subst hs
      simp [mute_roostats, envGetTruthy, hd, String.isEmpty_iff]
    · have hne : s.isEmpty = false := by
        cases h : s.isEmpty
        · rfl
        · exact absurd ((String.isEmpty_iff s).mp h) hs
      simp [mute_roostats, envGetTruthy, hd, hne, hs]

/-- C5: accessing the `datas` property never returns the collection of
datasets: the getter is declared without a `self` parameter, so the
property access itself raises TypeError for every workspace. -/
theorem datas_access_raises (ws : Workspace) :
    Workspace.datas ws =
      Except.error (PyError.typeError "getter takes no arguments (1 given)") := rfl

/-- C8: the Event tree model declares exactly the Jet fields under
prefixes jet1_ and jet2_, the Tau fields under prefixes tau1_ and
tau2_, an integer eventnumber column and a 2-vector missingET field;
Jet and Tau both carry fourmomentum from FourMomentum and matched from
MatchedObject. -/
theorem event_model_fields :
    Event =
      [("jet1_fourmomentum", ColType.LorentzVector),
       ("jet1_matched", ColType.BoolCol),
       ("jet1_btagged", ColType.BoolCol),
       ("jet2_fourmomentum", ColType.LorentzVector),
       ("jet2_matched", ColType.BoolCol),
       ("jet2_btagged", ColType.BoolCol),
       ("tau1_fourmomentum", ColType.LorentzVector),
       ("tau1_matched", ColType.BoolCol),
       ("tau1_numtrack", ColType.IntCol),
       ("tau1_charge", ColType.IntCol),
       ("tau2_fourmomentum", ColType.LorentzVector),
       ("tau2_matched", ColType.BoolCol),
       ("tau2_numtrack", ColType.IntCol),
       ("tau2_charge", ColType.IntCol),
       ("eventnumber", ColType.IntCol),
       ("missingET", ColType.Vector2)] ∧
    (("fourmomentum", ColType.LorentzVector) ∈ FourMomentum ∧
     ("fourmomentum", ColType.LorentzVector) ∈ Jet ∧
     ("fourmomentum", ColType.LorentzVector) ∈ Tau) ∧
    (("matched", ColType.BoolCol) ∈ MatchedObject ∧
     ("matched", ColType.BoolCol) ∈ Jet ∧
     ("matched", ColType.BoolCol) ∈ Tau) := by
  decide

theorem native_data_sub (ws : Workspace) (nm : String) (o : WSObject)
    (h : Native.data ws nm = some o) : Native.obj ws nm = some o := by
  unfold Native.data at h
  revert h
  cases h2 : Native.obj ws nm with
  | none => simp
  | some o2 => cases o2 <;> simp_all

theorem native_pdf_sub (ws : Workspace) (nm : String) (o : WSObject)
    (h : Native.pdf ws nm = some o) : Native.obj ws nm = some o := by
  unfold Native.pdf at h
  revert h
  cases h2 : Native.obj ws nm with
  | none => simp
  | some o2 => cases o2 <;> simp_all

theorem native_function_sub (ws : Workspace) (nm : String) (o : WSObject)
    (h : Native.function ws nm = some o) : Native.obj ws nm = some o := by
  unfold Native.function at h
  revert h
  cases h2 : Native.obj ws nm with
  | none => simp
  | some o2 => cases o2 <;> simp_all

theorem native_cat_sub (ws : Workspace) (nm : String) (o : WSObject)
    (h : Native.cat ws nm = some o) : Native.obj ws nm = some o := by
  unfold Native.cat at h
  revert h
  cases h2 : Native.obj ws nm with
  | none => simp
  | some o2 => cases o2 <;> simp_all

theorem native_catfunc_sub (ws : Workspace) (nm : String) (o : WSObject)
    (h : Native.catfunc ws nm = some o) : Native.obj ws nm = some o := by
  unfold Native.catfunc at h
  revert h
  cases h2 : Native.obj ws nm with
  | none => simp
  | some o2 => cases o2 <;> simp_all

theorem native_arg_sub (ws : Workspace) (nm : String) (o : WSObject)
    (h : Native.arg ws nm = some o) : Native.obj ws nm = some o := by
  unfold Native.arg at h
  revert h
  cases h2 : Native.obj ws nm with
  | none => simp
  | some o2 => cases o2 <;> simp_all

theorem native_argSet_sub (ws : Workspace) (nm : String) (o : WSObject)
    (h : Native.argSet ws nm = some o) : Native.obj ws nm = some o := by
  unfold Native.argSet at h
  revert h
  cases h2 : Native.obj ws nm with
  | none => simp
  | some o2 => cases o2 <;> simp_all

theorem native_set_sub (ws : Workspace) (nm : String) (o : WSObject)
    (h : Native.set ws nm = some o) : Native.obj ws nm = some o := by
  unfold Native.set at h
  revert h
  cases h2 : Native.obj ws nm with
  | none => simp
  | some o2 => cases o2 <;> simp_all

/-- C7: every named lookup on a `Workspace` is read-only: the workspace
after the call is the workspace before the call, and a lookup that
returns an object returns a pre-existing native object of the
workspace (possibly wrapped, the wrapping being a pass-through). -/
theorem lookups_read_only (op : LookupOp) (ws : Workspace) (nm : String) :
    (runLookup op ws nm).2 = ws ∧
    ∀ r, (runLookup op ws nm).1 = LookupResult.objR (Except.ok r) →
      ∃ k, (k, r) ∈ ws.objects := by
  refine ⟨by cases op <;> rfl, ?_⟩
  intro r hr
  cases op with
  | getitem =>
    simp only [runLookup, LookupResult.objR.injEq] at hr
    unfold Workspace.getitem at hr
    revert hr
    cases h : Native.obj ws nm with
    | none => simp
    | some o =>
      simp only [asrootpy, Except.ok.injEq]
      intro hr
      subst hr
      exact native_obj_mem ws nm o h
  | containsOp => cases hr
  | obj cls =>
    simp only [runLookup, LookupResult.objR.injEq] at hr
    unfold Workspace.obj at hr
    revert hr
    cases h : Native.obj ws nm with
    | none => simp
    | some o =>
      cases cls with
      | none =>
        simp only [asrootpy, Except.ok.injEq]
        intro hr
        subst hr
        exact native_obj_mem ws nm o h
      | some c =>
        cases hi : isInstanceOf o c with
        | false => simp [asrootpy, hi]
        | true =>
          simp only [asrootpy, hi, eq_self_iff_true, if_true, Except.ok.injEq]
          intro hr
          subst hr
          exact native_obj_mem ws nm o h
  | arg =>
    simp only [runLookup, LookupResult.objR.injEq] at hr
    unfold Workspace.arg at hr
    revert hr
    cases h : Native.arg ws nm with
    | none => simp
    | some o =>
      simp only [Except.ok.injEq]
      intro hr
      subst hr
      exact native_obj_mem ws nm o (native_arg_sub ws nm o h)
  | argset =>
    simp only [runLookup, LookupResult.objR.injEq] at hr
    unfold Workspace.argset at hr
    revert hr
    cases h : Native.argSet ws nm with
    | none => simp
    | some o =>
      simp only [Except.ok.injEq]
      intro hr
      subst hr
      exact native_obj_mem ws nm o (native_argSet_sub ws nm o h)
  | category =>
    simp only [runLookup, LookupResult.objR.injEq] at hr
    unfold Workspace.category at hr
    revert hr
    cases h : Native.cat ws nm with
    | none => simp
    | some o =>
      simp only [Except.ok.injEq]
      intro hr
      subst hr
      exact native_obj_mem ws nm o (native_cat_sub ws nm o h)
  | category_function =>
    simp only [runLookup, LookupResult.objR.injEq] at hr
    unfold Workspace.category_function at hr
    revert hr
    cases h : Native.catfunc ws nm with
    | none => simp
    | some o =>
      simp only [Except.ok.injEq]
      intro hr
      subst hr
      exact native_obj_mem ws nm o (native_catfunc_sub ws nm o h)
  | data =>
    simp only [runLookup, LookupResult.objR.injEq] at hr
    unfold Workspace.data at hr
    revert hr
    cases h : Native.data ws nm with
    | none => simp
    | some o =>
      simp only [Except.ok.injEq]
      intro hr
      subst hr
      exact native_obj_mem ws nm o (native_data_sub ws nm o h)
  | function =>
    simp only [runLookup, LookupResult.objR.injEq] at hr
    unfold Workspace.function at hr
    revert hr
    cases h : Native.function ws nm with
    | none => simp
    | some o =>
      simp only [Except.ok.injEq]
      intro hr
      subst hr
      exact native_obj_mem ws nm o (native_function_sub ws nm o h)
  | pdf =>
    simp only [runLookup, LookupResult.objR.injEq] at hr
    unfold Workspace.pdf at hr
    revert hr
    cases h : Native.pdf ws nm with
    | none => simp
    | some o =>
      simp only [Except.ok.injEq]
      intro hr
      subst hr
      exact native_obj_mem ws nm o (native_pdf_sub ws nm o h)
  | set =>
    simp only [runLookup, LookupResult.objR.injEq] at hr
    unfold Workspace.set at hr
    revert hr
    cases h : Native.set ws nm with
    | none => simp
    | some o =>
      simp only [asrootpy, Except.ok.injEq]
      intro hr
      subst hr
      exact native_obj_mem ws nm o (native_set_sub ws nm o h)
  | var => cases hr

/-- C1: evaluation of `fit` at the failing input, the default
`print_level = None`.  Under Python 2 the guard `print_level < 0` is
true for `None`, so even the default call sets the global kill-below
threshold to FATAL while the NLL is constructed (and restores it
afterwards), where the docstring and the claim say the threshold is
left alone for `None`. -/
theorem fit_default_print_level_gags_nll :
    demoGS.msgThreshold = MsgLevel.INFO ∧
    ({} : FitArgs).print_level = none ∧
    (Workspace.fit demoGS {}).1 =
      Except.ok
        { nll := { pdfName := "simPdf", dataName := "obsData",
                   builtAtThreshold := MsgLevel.FATAL },
          printLevel := none } ∧
    (Workspace.fit demoGS {}).2.msgThreshold = MsgLevel.INFO := by
  refine ⟨rfl, rfl, ?_, rfl⟩
  rfl

/-- C6: `fit` validates the named model config against ModelConfig, and
when the config declares at least one parameter of interest it sets the
constant flag of the first one to `poi_const`, its value to `poi_value`
when given, and its range to `poi_range` when given (stated with the
parameter dicts at their default `None`, so that the final workspace
exhibits exactly the POI block). -/
theorem fit_sets_first_poi
    (gs : GlobalState) (a : FitArgs) (mc : ModelConfig)
    (p : String) (ps : List String) (v : VarState) (d : WSObject)
    (hmc : Workspace.obj gs.ws a.model_config_name (some PyClass.modelConfigCls) =
      Except.ok (WSObject.modelConfig mc))
    (hp : mc.pois = p :: ps)
    (hd : Workspace.data gs.ws a.data_name = Except.ok d)
    (hv : Native.var gs.ws p = some v)
    (hnc : a.param_const = none) (hnv : a.param_values = none)
    (hnr : a.param_ranges = none) :
    Native.var (Workspace.fit gs a).2.ws p = some
      { value := match a.poi_value with | some x => x | none => v.value
        isConst := a.poi_const
        lo := match a.poi_range with | some r => r.1 | none => v.lo
        hi := match a.poi_range with | some r => r.2 | none => v.hi } := by
  simp only [Workspace.fit, hmc, hd]
  simp only [paramStages, hnc, hnv, hnr]
  simp only [poiStage, hp]
  cases hval : a.poi_value <;> cases hrange : a.poi_range <;>
    simp [setConstIn, setValIn, setRangeIn, native_var_setVarIn, hv]

/-- C10: when the model config declares no parameter of interest, the
`poi_const`, `poi_value` and `poi_range` arguments of `fit` are
silently ignored: the call behaves exactly as the call with those three
arguments left at their defaults. -/
theorem fit_ignores_poi_without_poi
    (gs : GlobalState) (a : FitArgs) (mc : ModelConfig)
    (c : Bool) (x : Option PyFloat) (r : Option (PyFloat × PyFloat))
    (hmc : Workspace.obj gs.ws a.model_config_name (some PyClass.modelConfigCls) =
      Except.ok (WSObject.modelConfig mc))
    (hpois : mc.pois = []) :
    Workspace.fit gs
        { a with poi_const := c, poi_value := x, poi_range := r } =
      Workspace.fit gs
        { a with poi_const := false, poi_value := none, poi_range := none } := by
  obtain ⟨dn, mcn, pc, pv, pr, poic, poiv, poir, pl⟩ := a
  simp only [Workspace.fit] at hmc ⊢
  simp only [hmc]
  simp only [poiStage, hpois, paramStages]

/-- Concrete fit arguments exercising the POI block. -/
def poiArgs : FitArgs :=
  { poi_const := true, poi_value := some 2, poi_range := some (-2, 8) }

/-- Witness for C6: on the demo workspace, fitting with
`poi_const := true`, `poi_value := 2`, `poi_range := (-2, 8)` leaves
the POI variable constant at value 2 with range [-2, 8]. -/
theorem fit_sets_first_poi_witness :
    Native.var (Workspace.fit demoGS poiArgs).2.ws "SigXsecOverSM" = some
      { value := 2, isConst := true, lo := -2, hi := 8 } :=
  fit_sets_first_poi demoGS poiArgs demoMC "SigXsecOverSM" [] poiVar
    (WSObject.dataObj "obsData") rfl rfl rfl rfl rfl rfl rfl

/-- Witness for C7: looking `obsData` up by `__getitem__` on the demo
workspace leaves the workspace unchanged and returns a stored object. -/
theorem lookups_read_only_witness :
    (runLookup LookupOp.getitem demoWS "obsData").2 = demoWS ∧
    ∃ k, (k, WSObject.dataObj "obsData") ∈ demoWS.objects :=
  ⟨(lookups_read_only LookupOp.getitem demoWS "obsData").1,
   (lookups_read_only LookupOp.getitem demoWS "obsData").2
     (WSObject.dataObj "obsData") rfl⟩

/-- Concrete fit arguments whose `param_const` dict names an existing
nuisance parameter first and then a missing one. -/
def badArgs : FitArgs :=
  { param_const := some [("alpha_sys", true), ("ghost", false)] }

/-- Concrete fit arguments whose POI settings should be ignored when
the model config has no POI. -/
def ignoredPoiArgs : FitArgs :=
  { poi_const := true, poi_value := some 3, poi_range := some (0, 1) }

/-- Witness for C10: on the workspace whose model config declares no
POI, `fit` with POI settings behaves exactly as `fit` with all
arguments at their defaults. -/
theorem fit_ignores_poi_without_poi_witness :
    Workspace.fit noPoiGS ignoredPoiArgs = Workspace.fit noPoiGS {} :=
  fit_ignores_poi_without_poi noPoiGS {} emptyPoiMC true (some 3) (some (0, 1)) rfl rfl

/-! ## The three parameter loops: completion and failure states -/

theorem applyParamValues_missing (bad : String) (x : PyFloat)
    (done rest : List (String × PyFloat)) :
    ∀ (ws : Workspace),
      (∀ q ∈ done, (Native.var ws q.1).isSome = true) →
      Native.var ws bad = none →
      applyParamValues ws (done ++ (bad, x) :: rest) =
        Except.error
          (PyError.valueError ("RooRealVar named " ++ bad ++
            " does not exist in the workspace " ++ ws.name),
           List.foldl valueStep ws done) := by
  induction done with
  | nil =>
    intro ws _ hbad
    simp [applyParamValues, Workspace.var, hbad]
  | cons p t ih =>
    intro ws hdone hbad
    have hp : (Native.var ws p.1).isSome = true := hdone p (by simp)
    obtain ⟨v, hv⟩ := Option.isSome_iff_exists.mp hp
    have hvar : Workspace.var ws p.1 = Except.ok v := by
      simp [Workspace.var, hv]
    simp only [List.cons_append, applyParamValues, hvar]
    simp only [List.append_eq]
    have hname : (valueStep ws p).name = ws.name := by
      simp [valueStep, setValIn, setVarIn_name]
    have hdone2 : ∀ q ∈ t, (Native.var (valueStep ws p) q.1).isSome = true := by
      intro q hq
      have := hdone q (by simp [hq])
      simpa [valueStep, setValIn, native_var_setVarIn_isSome] using this
    have hbad2 : Native.var (valueStep ws p) bad = none := by
      have hs2 : (Native.var (valueStep ws p) bad).isSome = false := by
        simp [valueStep, setValIn, native_var_setVarIn_isSome, hbad]
      exact Option.not_isSome_iff_eq_none.mp (by simp [hs2])
    rw [ih (valueStep ws p) hdone2 hbad2, hname]
    simp [List.foldl]

theorem applyParamRanges_missing (bad : String) (r : PyFloat × PyFloat)
    (done rest : List (String × (PyFloat × PyFloat))) :
    ∀ (ws : Workspace),
      (∀ q ∈ done, (Native.var ws q.1).isSome = true) →
      Native.var ws bad = none →
      applyParamRanges ws (done ++ (bad, r) :: rest) =
        Except.error
          (PyError.valueError ("RooRealVar named " ++ bad ++
            " does not exist in the workspace " ++ ws.name),
           List.foldl rangeStep ws done) := by
  induction done with
  | nil =>
    intro ws _ hbad
    simp [applyParamRanges, Workspace.var, hbad]
  | cons p t ih =>
    intro ws hdone hbad
    have hp : (Native.var ws p.1).isSome = true := hdone p (by simp)
    obtain ⟨v, hv⟩ := Option.isSome_iff_exists.mp hp
    have hvar : Workspace.var ws p.1 = Except.ok v := by
      simp [Workspace.var, hv]
    simp only [List.cons_append, applyParamRanges, hvar]
    simp only [List.append_eq]
    have hname : (rangeStep ws p).name = ws.name := by
      simp [rangeStep, setRangeIn, setVarIn_name]
    have hdone2 : ∀ q ∈ t, (Native.var (rangeStep ws p) q.1).isSome = true := by
      intro q hq
      have := hdone q (by simp [hq])
      simpa [rangeStep, setRangeIn, native_var_setVarIn_isSome] using this
    have hbad2 : Native.var (rangeStep ws p) bad = none := by
      have hs2 : (Native.var (rangeStep ws p) bad).isSome = false := by
        simp [rangeStep, setRangeIn, native_var_setVarIn_isSome, hbad]
      exact Option.not_isSome_iff_eq_none.mp (by simp [hs2])
    rw [ih (rangeStep ws p) hdone2 hbad2, hname]
    simp [List.foldl]

theorem applyParamConst_complete (l : List (String × Bool)) :
    ∀ (ws : Workspace), (∀ q ∈ l, (Native.var ws q.1).isSome = true) →
      applyParamConst ws l = Except.ok (List.foldl constStep ws l) := by
  induction l with
  | nil => intro ws _; rfl
  | cons q t ih =>
    intro ws h
    have hq : (Native.var ws q.1).isSome = true := h q (by simp)
    obtain ⟨v, hv⟩ := Option.isSome_iff_exists.mp hq
    have hvar : Workspace.var ws q.1 = Except.ok v := by
      simp [Workspace.var, hv]
    simp only [applyParamConst, hvar, List.foldl_cons]
    exact ih (constStep ws q) (by
      intro p hp
      have := h p (by simp [hp])
      simpa [constStep, setConstIn, native_var_setVarIn_isSome] using this)

theorem applyParamValues_complete (l : List (String × PyFloat)) :
    ∀ (ws : Workspace), (∀ q ∈ l, (Native.var ws q.1).isSome = true) →
      applyParamValues ws l = Except.ok (List.foldl valueStep ws l) := by
  induction l with
  | nil => intro ws _; rfl
  | cons q t ih =>
    intro ws h
    have hq : (Native.var ws q.1).isSome = true := h q (by simp)
    obtain ⟨v, hv⟩ := Option.isSome_iff_exists.mp hq
    have hvar : Workspace.var ws q.1 = Except.ok v := by
      simp [Workspace.var, hv]
    simp only [applyParamValues, hvar, List.foldl_cons]
    exact ih (valueStep ws q) (by
      intro p hp
      have := h p (by simp [hp])
      simpa [valueStep, setValIn, native_var_setVarIn_isSome] using this)

theorem native_var_foldl_constStep_isSome (l : List (String × Bool)) :
    ∀ (ws : Workspace) (m : String),
      (Native.var (List.foldl constStep ws l) m).isSome = (Native.var ws m).isSome := by
  induction l with
  | nil => intro ws m; rfl
  | cons q t ih =>
    intro ws m
    rw [List.foldl_cons, ih]
    simp [constStep, setConstIn, native_var_setVarIn_isSome]

theorem native_var_foldl_valueStep_isSome (l : List (String × PyFloat)) :
    ∀ (ws : Workspace) (m : String),
      (Native.var (List.foldl valueStep ws l) m).isSome = (Native.var ws m).isSome := by
  induction l with
  | nil => intro ws m; rfl
  | cons q t ih =>
    intro ws m
    rw [List.foldl_cons, ih]
    simp [valueStep, setValIn, native_var_setVarIn_isSome]

theorem foldl_constStep_name (l : List (String × Bool)) :
    ∀ (ws : Workspace), (List.foldl constStep ws l).name = ws.name := by
  induction l with
  | nil => intro ws; rfl
  | cons q t ih =>
    intro ws
    rw [List.foldl_cons, ih]
    rfl

theorem foldl_valueStep_name (l : List (String × PyFloat)) :
    ∀ (ws : Workspace), (List.foldl valueStep ws l).name = ws.name := by
  induction l with
  | nil => intro ws; rfl
  | cons q t ih =>
    intro ws
    rw [List.foldl_cons, ih]
    rfl

/-- The workspace after the `param_const` block completes without an
exception: the fold of the const settings, `none` meaning the block is
skipped. -/
def constAll (ws : Workspace) : Option (List (String × Bool)) → Workspace
  | none => ws
  | some l => List.foldl constStep ws l

/-- The workspace after the `param_values` block completes without an
exception. -/
def valueAll (ws : Workspace) : Option (List (String × PyFloat)) → Workspace
  | none => ws
  | some l => List.foldl valueStep ws l

theorem constAll_name (ws : Workspace) (pc : Option (List (String × Bool))) :
    (constAll ws pc).name = ws.name := by
  cases pc with
  | none => rfl
  | some l => simp [constAll, foldl_constStep_name]

theorem valueAll_name (ws : Workspace) (pv : Option (List (String × PyFloat))) :
    (valueAll ws pv).name = ws.name := by
  cases pv with
  | none => rfl
  | some l => simp [valueAll, foldl_valueStep_name]

theorem native_var_constAll_isSome (ws : Workspace)
    (pc : Option (List (String × Bool))) (m : String) :
    (Native.var (constAll ws pc) m).isSome = (Native.var ws m).isSome := by
  cases pc with
  | none => rfl
  | some l => simp [constAll, native_var_foldl_constStep_isSome]

theorem native_var_valueAll_isSome (ws : Workspace)
    (pv : Option (List (String × PyFloat))) (m : String) :
    (Native.var (valueAll ws pv) m).isSome = (Native.var ws m).isSome := by
  cases pv with
  | none => rfl
  | some l => simp [valueAll, native_var_foldl_valueStep_isSome]

theorem fit_paramStages_error (gs : GlobalState) (a : FitArgs) (mc : ModelConfig)
    (d : WSObject) (e : PyError) (wsP : Workspace)
    (hmc : Workspace.obj gs.ws a.model_config_name (some PyClass.modelConfigCls) =
      Except.ok (WSObject.modelConfig mc))
    (hd : Workspace.data gs.ws a.data_name = Except.ok d)
    (hps : paramStages (poiStage gs.ws mc a) a = Except.error (e, wsP)) :
    Workspace.fit gs a = (Except.error e, { gs with ws := wsP }) := by
  simp only [Workspace.fit, hmc, hd, hps]

theorem paramStages_const_missing (a : FitArgs) (ws : Workspace)
    (bad : String) (b : Bool) (done rest : List (String × Bool))
    (hpc : a.param_const = some (done ++ (bad, b) :: rest))
    (hdone : ∀ q ∈ done, (Native.var ws q.1).isSome = true)
    (hbad : Native.var ws bad = none) :
    paramStages ws a =
      Except.error
        (PyError.valueError ("RooRealVar named " ++ bad ++
          " does not exist in the workspace " ++ ws.name),
         List.foldl constStep ws done) := by
  have happly := applyParamConst_missing bad b done rest ws hdone hbad
  simp only [paramStages, hpc, happly]

theorem paramStages_values_missing (a : FitArgs) (ws : Workspace)
    (bad : String) (x : PyFloat) (done rest : List (String × PyFloat))
    (hcl : ∀ q ∈ a.param_const.getD [], (Native.var ws q.1).isSome = true)
    (hpv : a.param_values = some (done ++ (bad, x) :: rest))
    (hdone : ∀ q ∈ done, (Native.var ws q.1).isSome = true)
    (hbad : Native.var ws bad = none) :
    paramStages ws a =
      Except.error
        (PyError.valueError ("RooRealVar named " ++ bad ++
          " does not exist in the workspace " ++ ws.name),
         List.foldl valueStep (constAll ws a.param_const) done) := by
  cases hpc : a.param_const with
  | none =>
    have happly := applyParamValues_missing bad x done rest ws hdone hbad
    simp only [paramStages, hpc, hpv, happly, constAll]
  | some lc =>
    have hallc : ∀ q ∈ lc, (Native.var ws q.1).isSome = true := by
      intro q hq
      apply hcl
      rw [hpc]
      exact hq
    have hcompc := applyParamConst_complete lc ws hallc
    have hdoneC : ∀ q ∈ done,
        (Native.var (List.foldl constStep ws lc) q.1).isSome = true := by
      intro q hq
      rw [native_var_foldl_constStep_isSome]
      exact hdone q hq
    have hbadC : Native.var (List.foldl constStep ws lc) bad = none := by
      have hs : (Native.var (List.foldl constStep ws lc) bad).isSome = false := by
        rw [native_var_foldl_constStep_isSome, hbad]
        rfl
      exact Option.not_isSome_iff_eq_none.mp (by simp [hs])
    have happly := applyParamValues_missing bad x done rest
      (List.foldl constStep ws lc) hdoneC hbadC
    rw [foldl_constStep_name] at happly
    simp only [paramStages, hpc, hcompc, hpv, happly, constAll]

theorem paramStages_ranges_missing (a : FitArgs) (ws : Workspace)
    (bad : String) (r : PyFloat × PyFloat)
    (done rest : List (String × (PyFloat × PyFloat)))
    (hcl : ∀ q ∈ a.param_const.getD [], (Native.var ws q.1).isSome = true)
    (hvl : ∀ q ∈ a.param_values.getD [], (Native.var ws q.1).isSome = true)
    (hpr : a.param_ranges = some (done ++ (bad, r) :: rest))
    (hdone : ∀ q ∈ done, (Native.var ws q.1).isSome = true)
    (hbad : Native.var ws bad = none) :
    paramStages ws a =
      Except.error
        (PyError.valueError ("RooRealVar named " ++ bad ++
          " does not exist in the workspace " ++ ws.name),
         List.foldl rangeStep (valueAll (constAll ws a.param_const) a.param_values)
           done) := by
  cases hpc : a.param_const with
  | none =>
    cases hpv : a.param_values with
    | none =>
      have happly := applyParamRanges_missing bad r done rest ws hdone hbad
      simp only [paramStages, hpc, hpv, hpr, happly, constAll, valueAll]
    | some lv =>
      have hallv : ∀ q ∈ lv, (Native.var ws q.1).isSome = true := by
        intro q hq
        apply hvl
        rw [hpv]
        exact hq
      have hcompv := applyParamValues_complete lv ws hallv
      have hdoneV : ∀ q ∈ done,
          (Native.var (List.foldl valueStep ws lv) q.1).isSome = true := by
        intro q hq
        rw [native_var_foldl_valueStep_isSome]
        exact hdone q hq
      have hbadV : Native.var (List.foldl valueStep ws lv) bad = none := by
        have hs : (Native.var (List.foldl valueStep ws lv) bad).isSome = false := by
          rw [native_var_foldl_valueStep_isSome, hbad]
          rfl
        exact Option.not_isSome_iff_eq_none.mp (by simp [hs])
      have happly := applyParamRanges_missing bad r done rest
        (List.foldl valueStep ws lv) hdoneV hbadV
      rw [foldl_valueStep_name] at happly
      simp only [paramStages, hpc, hpv, hpr, hcompv, happly, constAll, valueAll]
  | some lc =>
    have hallc : ∀ q ∈ lc, (Native.var ws q.1).isSome = true := by
      intro q hq
      apply hcl
      rw [hpc]
      exact hq
    have hcompc := applyParamConst_complete lc ws hallc
    cases hpv : a.param_values with
    | none =>
      have hdoneC : ∀ q ∈ done,
          (Native.var (List.foldl constStep ws lc) q.1).isSome = true := by
        intro q hq
        rw [native_var_foldl_constStep_isSome]
        exact hdone q hq
      have hbadC : Native.var (List.foldl constStep ws lc) bad = none := by
        have hs : (Native.var (List.foldl constStep ws lc) bad).isSome = false := by
          rw [native_var_foldl_constStep_isSome, hbad]
          rfl
        exact Option.not_isSome_iff_eq_none.mp (by simp [hs])
      have happly := applyParamRanges_missing bad r done rest
        (List.foldl constStep ws lc) hdoneC hbadC
      rw [foldl_constStep_name] at happly
      simp only [paramStages, hpc, hpv, hpr, hcompc, happly, constAll, valueAll]
    | some lv =>
      have hallv : ∀ q ∈ lv,
          (Native.var (List.foldl constStep ws lc) q.1).isSome = true := by
        intro q hq
        rw [native_var_foldl_constStep_isSome]
        apply hvl
        rw [hpv]
        exact hq
      have hcompv := applyParamValues_complete lv (List.foldl constStep ws lc) hallv
      have hdoneV : ∀ q ∈ done,
          (Native.var (List.foldl valueStep (List.foldl constStep ws lc) lv) q.1).isSome
            = true := by
        intro q hq
        rw [native_var_foldl_valueStep_isSome, native_var_foldl_constStep_isSome]
        exact hdone q hq
      have hbadV :
          Native.var (List.foldl valueStep (List.foldl constStep ws lc) lv) bad
            = none := by
        have hs :
            (Native.var (List.foldl valueStep (List.foldl constStep ws lc) lv)
              bad).isSome = false := by
          rw [native_var_foldl_valueStep_isSome, native_var_foldl_constStep_isSome,
            hbad]
          rfl
        exact Option.not_isSome_iff_eq_none.mp (by simp [hs])
      have happly := applyParamRanges_missing bad r done rest
        (List.foldl valueStep (List.foldl constStep ws lc) lv) hdoneV hbadV
      rw [foldl_valueStep_name, foldl_constStep_name] at happly
      simp only [paramStages, hpc, hpv, hpr, hcompc, hcompv, happly, constAll,
        valueAll]

/-- C9: calling `fit` with a `param_const`, `param_values` or
`param_ranges` dict that names a parameter with no corresponding
variable in the workspace raises ValueError, and the final workspace
keeps every modification already applied before the missing name was
reached — the POI settings and the const flags, values and ranges of
the earlier parameters; nothing is rolled back. -/
theorem fit_missing_param_no_rollback
    (gs : GlobalState) (a : FitArgs) (mc : ModelConfig) (d : WSObject)
    (hmc : Workspace.obj gs.ws a.model_config_name (some PyClass.modelConfigCls) =
      Except.ok (WSObject.modelConfig mc))
    (hd : Workspace.data gs.ws a.data_name = Except.ok d) :
    (∀ (bad : String) (b : Bool) (done rest : List (String × Bool)),
      a.param_const = some (done ++ (bad, b) :: rest) →
      (∀ q ∈ done, (Native.var gs.ws q.1).isSome = true) →
      Native.var gs.ws bad = none →
      Workspace.fit gs a =
        (Except.error (PyError.valueError ("RooRealVar named " ++ bad ++
           " does not exist in the workspace " ++ gs.ws.name)),
         { gs with ws := (List.foldl constStep (poiStage gs.ws mc a) done) })) ∧
    (∀ (bad : String) (x : PyFloat) (done rest : List (String × PyFloat)),
      (∀ q ∈ a.param_const.getD [], (Native.var gs.ws q.1).isSome = true) →
      a.param_values = some (done ++ (bad, x) :: rest) →
      (∀ q ∈ done, (Native.var gs.ws q.1).isSome = true) →
      Native.var gs.ws bad = none →
      Workspace.fit gs a =
        (Except.error (PyError.valueError ("RooRealVar named " ++ bad ++
           " does not exist in the workspace " ++ gs.ws.name)),
         { gs with ws := (List.foldl valueStep
             (constAll (poiStage gs.ws mc a) a.param_const) done) })) ∧
    (∀ (bad : String) (r : PyFloat × PyFloat)
        (done rest : List (String × (PyFloat × PyFloat))),
      (∀ q ∈ a.param_const.getD [], (Native.var gs.ws q.1).isSome = true) →
      (∀ q ∈ a.param_values.getD [], (Native.var gs.ws q.1).isSome = true) →
      a.param_ranges = some (done ++ (bad, r) :: rest) →
      (∀ q ∈ done, (Native.var gs.ws q.1).isSome = true) →
      Native.var gs.ws bad = none →
      Workspace.fit gs a =
        (Except.error (PyError.valueError ("RooRealVar named " ++ bad ++
           " does not exist in the workspace " ++ gs.ws.name)),
         { gs with ws := (List.foldl rangeStep
             (valueAll (constAll (poiStage gs.ws mc a) a.param_const)
               a.param_values) done) })) := by
  refine ⟨?_, ?_, ?_⟩
  · intro bad b done rest hpc hdone hbad
    have hps := paramStages_const_missing a (poiStage gs.ws mc a) bad b done rest hpc
      (by
        intro q hq
        rw [native_var_poiStage_isSome]
        exact hdone q hq)
      (by
        have hs : (Native.var (poiStage gs.ws mc a) bad).isSome = false := by
          rw [native_var_poiStage_isSome, hbad]
          rfl
        exact Option.not_isSome_iff_eq_none.mp (by simp [hs]))
    rw [poiStage_name] at hps
    exact fit_paramStages_error gs a mc d _ _ hmc hd hps
  · intro bad x done rest hcl hpv hdone hbad
    have hps := paramStages_values_missing a (poiStage gs.ws mc a) bad x done rest
      (by
        intro q hq
        rw [native_var_poiStage_isSome]
        exact hcl q hq)
      hpv
      (by
        intro q hq
        rw [native_var_poiStage_isSome]
        exact hdone q hq)
      (by
        have hs : (Native.var (poiStage gs.ws mc a) bad).isSome = false := by
          rw [native_var_poiStage_isSome, hbad]
          rfl
        exact Option.not_isSome_iff_eq_none.mp (by simp [hs]))
    rw [poiStage_name] at hps
    exact fit_paramStages_error gs a mc d _ _ hmc hd hps
  · intro bad r done rest hcl hvl hpr hdone hbad
    have hps := paramStages_ranges_missing a (poiStage gs.ws mc a) bad r done rest
      (by
        intro q hq
        rw [native_var_poiStage_isSome]
        exact hcl q hq)
      (by
        intro q hq
        rw [native_var_poiStage_isSome]
        exact hvl q hq)
      hpr
      (by
        intro q hq
        rw [native_var_poiStage_isSome]
        exact hdone q hq)
      (by
        have hs : (Native.var (poiStage gs.ws mc a) bad).isSome = false := by
          rw [native_var_poiStage_isSome, hbad]
          rfl
        exact Option.not_isSome_iff_eq_none.mp (by simp [hs]))
    rw [poiStage_name] at hps
    exact fit_paramStages_error gs a mc d _ _ hmc hd hps

/-- Concrete fit arguments whose `param_values` dict names the existing
POI variable first and then a missing one, after a completing
`param_const` dict. -/
def badValueArgs : FitArgs :=
  { param_const := some [("alpha_sys", true)],
    param_values := some [("SigXsecOverSM", 7), ("ghost", 1)] }

/-- Concrete fit arguments whose `param_ranges` dict names the existing
POI variable first and then a missing one, after completing
`param_const` and `param_values` dicts. -/
def badRangeArgs : FitArgs :=
  { param_const := some [("alpha_sys", false)],
    param_values := some [("alpha_sys", 4)],
    param_ranges := some [("SigXsecOverSM", (0, 5)), ("ghost", (1, 2))] }

/-- Witness for C9: on the demo workspace, a missing name in
`param_const`, in `param_values`, or in `param_ranges` each raises
ValueError, and in each case the final state keeps the POI block and
the const flag, value, or range already applied to the earlier
parameter. -/
theorem fit_missing_param_no_rollback_witness :
    (Workspace.fit demoGS badArgs =
      (Except.error (PyError.valueError ("RooRealVar named " ++ "ghost" ++
         " does not exist in the workspace " ++ demoGS.ws.name)),
       { demoGS with ws := (List.foldl constStep (poiStage demoGS.ws demoMC badArgs)
           [("alpha_sys", true)]) })) ∧
    Native.var (Workspace.fit demoGS badArgs).2.ws "alpha_sys" =
      some { nuisVar with isConst := true } ∧
    (Workspace.fit demoGS badValueArgs =
      (Except.error (PyError.valueError ("RooRealVar named " ++ "ghost" ++
         " does not exist in the workspace " ++ demoGS.ws.name)),
       { demoGS with ws := (List.foldl valueStep
           (constAll (poiStage demoGS.ws demoMC badValueArgs) badValueArgs.param_const)
           [("SigXsecOverSM", 7)]) })) ∧
    Native.var (Workspace.fit demoGS badValueArgs).2.ws "SigXsecOverSM" =
      some { poiVar with value := 7 } ∧
    (Workspace.fit demoGS badRangeArgs =
      (Except.error (PyError.valueError ("RooRealVar named " ++ "ghost" ++
         " does not exist in the workspace " ++ demoGS.ws.name)),
       { demoGS with ws := (List.foldl rangeStep
           (valueAll (constAll (poiStage demoGS.ws demoMC badRangeArgs)
              badRangeArgs.param_const) badRangeArgs.param_values)
           [("SigXsecOverSM", (0, 5))]) })) ∧
    Native.var (Workspace.fit demoGS badRangeArgs).2.ws "SigXsecOverSM" =
      some { poiVar with lo := 0, hi := 5 } :=
  ⟨(fit_missing_param_no_rollback demoGS badArgs demoMC (WSObject.dataObj "obsData")
      rfl rfl).1 "ghost" false [("alpha_sys", true)] [] rfl (by decide) rfl,
   by rfl,
   (fit_missing_param_no_rollback demoGS badValueArgs demoMC
      (WSObject.dataObj "obsData") rfl rfl).2.1 "ghost" 1 [("SigXsecOverSM", 7)] []
      (by decide) rfl (by decide) rfl,
   by rfl,
   (fit_missing_param_no_rollback demoGS badRangeArgs demoMC
      (WSObject.dataObj "obsData") rfl rfl).2.2 "ghost" (1, 2)
      [("SigXsecOverSM", (0, 5))] [] (by decide) (by decide) rfl (by decide) rfl,
   by rfl⟩
